import Mathlib

/-!
Verification development for the Daisyworld simulation engine
(src/DaisyWolrd.py).  The Python engine stores each cell of the grid as a
plain string ("white", "black" or "empty") in a numpy array; floats are
modelled as rationals, and the shared random source (`random.random`,
`random.choice`, `np.random`) is modelled as an explicit stream of uniform
draws in [0,1) threaded through the stateful functions.
-/

/-- A cell of the grid.  The Python code stores plain strings, so a cell is a
string; the three recognized states are "white", "black" and "empty". -/
abbrev Cell := String

/-- The grid: a two-dimensional array of cells, row-major. -/
abbrev Grid := List (List Cell)

/-- The simulation parameters chosen in the sidebar (module-level globals in
the Python file): grid size, step count, initial fractions (the empty
fraction is derived as 1 - white - black by the app), albedo values, solar
luminosity, optimal temperature, reproduction and death rates. -/
structure Params where
  gridSize : Int
  steps : Int
  whiteFrac : ℚ
  blackFrac : ℚ
  emptyFrac : ℚ
  albedoWhite : ℚ
  albedoBlack : ℚ
  albedoEmpty : ℚ
  solarLuminosity : ℚ
  optimalTemp : ℚ
  reproductionRate : ℚ
  deathRate : ℚ
deriving DecidableEq

/-- The error kinds of the engine: `invalidParameters` for parameter
validation failures (numpy's ValueError from `np.random.choice` on bad
probabilities, and the spec's `validate`), `invalidGrid` for the ValueError
raised by `np.vectorize` on a size-0 grid inside `calculate_temperature`,
`unknownCell` for the KeyError raised by the `daisy_types` dict lookup on an
unrecognized cell value. -/
inductive SimError where
  | invalidParameters
  | invalidGrid
  | unknownCell
deriving DecidableEq

/-- The albedo lookup table `daisy_types = {"white": albedo_white, "black":
albedo_black, "empty": albedo_empty}`; a dict lookup on any other key raises
KeyError, modelled as `none`. -/
def daisy_types (p : Params) (c : Cell) : Option ℚ :=
  if c = "white" then some p.albedoWhite
  else if c = "black" then some p.albedoBlack
  else if c = "empty" then some p.albedoEmpty
  else none

/-- All cells of a grid, row-major. -/
def cells (g : Grid) : List Cell := g.flatten

/-- Number of cells of a grid (numpy `grid.size`). -/
def totalCells (g : Grid) : ℕ := (cells g).length

/-- The dimensions of a grid: the list of row lengths. -/
def dims (g : Grid) : List ℕ := g.map List.length

/-- A cell value is recognized when it is one of the three states the code
compares against. -/
def vcell (c : Cell) : Bool := c == "white" || c == "black" || c == "empty"

/-- A grid is valid when every cell is one of the three recognized states. -/
def gridValid (g : Grid) : Bool := g.all (fun row => row.all vcell)

/-- `calculate_temperature(grid)`: maps every cell through the `daisy_types`
lookup (`np.vectorize`, which raises ValueError on a size-0 input), takes the
mean albedo (`np.mean`) and returns
`solar_luminosity * (1 - global_albedo) * (2 * optimal_temp)`. -/
def calculate_temperature (p : Params) (g : Grid) : Except SimError ℚ :=
  if totalCells g = 0 then .error .invalidGrid
  else
    match (cells g).mapM (daisy_types p) with
    | none => .error .unknownCell
    | some l => .ok (p.solarLuminosity * (1 - l.sum / (l.length : ℚ)) * (2 * p.optimalTemp))

/-- The explicit random source: a stream of uniform draws in [0,1) and the
index of the next draw to be consumed. -/
structure Rng where
  draws : ℕ → ℚ
  idx : ℕ

/-- The next uniform draw of the source. -/
def Rng.val (r : Rng) : ℚ := r.draws r.idx

/-- The source after one draw has been consumed. -/
def Rng.step (r : Rng) : Rng := ⟨r.draws, r.idx + 1⟩

/-- The growth probability of an empty cell:
`reproduction_rate * (1 - abs(temperature - optimal_temp) / optimal_temp)`. -/
def growthProb (p : Params) (temp : ℚ) : ℚ :=
  p.reproductionRate * (1 - |temp - p.optimalTemp| / p.optimalTemp)

/-- The death probability of an occupied cell:
`death_rate * abs(temperature - optimal_temp) / optimal_temp`. -/
def deathProb (p : Params) (temp : ℚ) : ℚ :=
  p.deathRate * (|temp - p.optimalTemp| / p.optimalTemp)

/-- The loop body of `update_daisies` for one cell: an "empty" cell draws
once against the growth probability and on success draws again to pick
"white" or "black" with equal probability (`random.choice`); a "white" or
"black" cell draws once against the death probability and on success becomes
"empty"; any other value is left unchanged (`new_grid = grid.copy()`) and
consumes no draw. -/
def update_cell (p : Params) (temp : ℚ) (c : Cell) (r : Rng) : Cell × Rng :=
  if c = "empty" then
    if r.val < growthProb p temp then
      ((if r.step.val < 1 / 2 then "white" else "black"), r.step.step)
    else (c, r.step)
  else if c = "white" ∨ c = "black" then
    if r.val < deathProb p temp then ("empty", r.step) else (c, r.step)
  else (c, r)

/-- One row of the `update_daisies` double loop, threading the random
source left to right. -/
def update_row (p : Params) (temp : ℚ) : List Cell → Rng → List Cell × Rng
  | [], r => ([], r)
  | c :: cs, r =>
    let cr := update_cell p temp c r
    let rest := update_row p temp cs cr.2
    (cr.1 :: rest.1, rest.2)

/-- `update_daisies(grid, temperature)`: every cell's next state is decided
from the current grid only, row by row, cell by cell, threading the random
source. -/
def update_daisies (p : Params) (temp : ℚ) : Grid → Rng → Grid × Rng
  | [], r => ([], r)
  | row :: rows, r =>
    let rr := update_row p temp row r
    let rest := update_daisies p temp rows rr.2
    (rr.1 :: rest.1, rest.2)

/-- `np.sum(grid == c)`: the number of cells of the grid equal to `c`. -/
def countCell (g : Grid) (c : Cell) : ℕ := ((cells g).filter (fun x => x == c)).length

/-- `simulate_daisyworld(grid, steps)`: repeat `steps` times: compute the
temperature of the current grid, append temperature, the three population
counts and a copy of the current grid to the histories, then replace the
grid by `update_daisies(grid, temp)`.  Returns
(grids, temperatures, white counts, black counts, empty counts). -/
def simulate_daisyworld (p : Params) :
    Grid → Rng → ℕ → Except SimError (List Grid × List ℚ × List ℕ × List ℕ × List ℕ)
  | _, _, 0 => .ok ([], [], [], [], [])
  | g, r, n + 1 =>
    match calculate_temperature p g with
    | .error e => .error e
    | .ok temp =>
      let gr := update_daisies p temp g r
      match simulate_daisyworld p gr.1 gr.2 n with
      | .error e => .error e
      | .ok (gs, ts, ws, bs, es) =>
        .ok (g :: gs, temp :: ts, countCell g "white" :: ws,
             countCell g "black" :: bs, countCell g "empty" :: es)

/-- The (grid, random source) state reached after `t` steps of the
simulation loop, i.e. the state whose measurements land at index `t` of the
histories.  When `calculate_temperature` fails the loop aborts and the state
is left as is (the driver then reports the error). -/
def sim_states (p : Params) : Grid × Rng → ℕ → Grid × Rng
  | s, 0 => s
  | s, n + 1 =>
    match calculate_temperature p s.1 with
    | .error _ => s
    | .ok temp => sim_states p (update_daisies p temp s.1 s.2) n

/-- The spec's albedo mapping `{White→albedoWhite, Black→albedoBlack,
Empty→albedoEmpty}` as a total function on the three-variant state. -/
def cellAlbedo (p : Params) (c : Cell) : ℚ :=
  if c = "white" then p.albedoWhite
  else if c = "black" then p.albedoBlack
  else p.albedoEmpty

/-- Sum, over all cells, of the cell's mapped albedo value. -/
def albedoSum (p : Params) (g : Grid) : ℚ := ((cells g).map (cellAlbedo p)).sum

/-- The temperature value the formula of the spec assigns to a grid:
`solarLuminosity * (1 - globalAlbedo) * (2 * optimalTemp)` with
`globalAlbedo` the arithmetic mean of the mapped albedo values. -/
def temp_value (p : Params) (g : Grid) : ℚ :=
  p.solarLuminosity * (1 - albedoSum p g / (totalCells g : ℚ)) * (2 * p.optimalTemp)

/-- The tolerance `np.random.choice` allows on the sum of the probability
vector (numpy uses the square root of the double-precision machine
epsilon). -/
def atol : ℚ := 1 / 2 ^ 26

/-- One cell of the initial grid: `np.random.choice` builds the cumulated
distribution of the (sum-normalized) probability vector
`[white_frac, black_frac, empty_frac]` and picks, for a uniform draw `d`,
the first entry whose cumulated mass exceeds `d`.  `s` is the sum of the
three fractions. -/
def init_cell (p : Params) (s d : ℚ) : Cell :=
  if d < p.whiteFrac / s then "white"
  else if d < (p.whiteFrac + p.blackFrac) / s then "black"
  else "empty"

/-- `initialize_grid(size)`: `np.random.choice(["white","black","empty"],
size=(size,size), p=[white_frac, black_frac, empty_frac])`.  numpy raises a
ValueError when any probability is negative or when the probabilities do not
sum to 1 within tolerance; otherwise every cell is drawn independently from
the categorical distribution, consuming the draws row-major. -/
def initialize_grid (p : Params) (r : Rng) (size : ℕ) : Except SimError Grid :=
  if p.whiteFrac < 0 ∨ p.blackFrac < 0 ∨ p.emptyFrac < 0 then .error .invalidParameters
  else if atol < |p.whiteFrac + p.blackFrac + p.emptyFrac - 1| then .error .invalidParameters
  else
    .ok ((List.range size).map (fun i =>
      (List.range size).map (fun j =>
        init_cell p (p.whiteFrac + p.blackFrac + p.emptyFrac)
          (r.draws (r.idx + i * size + j)))))

/-- Modelled from the spec: the `validate` entry point of §6 does not exist
as a function in src/DaisyWolrd.py (the sidebar sliders clamp every
parameter so invalid combinations cannot be produced); §7 specifies it
rejects, with `InvalidParameters`, fractions out of range or summing above
1, `optimalTemp = 0`, and non-positive `gridSize` or `steps`. -/
def validate (p : Params) : Except SimError Params :=
  if p.gridSize ≤ 0 ∨ p.steps ≤ 0 ∨
     p.whiteFrac < 0 ∨ 1 < p.whiteFrac ∨ p.blackFrac < 0 ∨ 1 < p.blackFrac ∨
     1 < p.whiteFrac + p.blackFrac ∨ p.optimalTemp = 0 then
    .error .invalidParameters
  else .ok p

/-- Modelled from the spec: the assembled pipeline of §2 — parameters are
validated first, and only a validated parameter set reaches the simulation
(and hence `update_daisies`). -/
def run_validated (p : Params) (g : Grid) (r : Rng) :
    Except SimError (List Grid × List ℚ × List ℕ × List ℕ × List ℕ) :=
  match validate p with
  | .error e => .error e
  | .ok q => simulate_daisyworld q g r q.steps.toNat

/-! ### Basic structural lemmas -/

theorem getD_map_range {α : Type} (f : ℕ → α) (d : α) {t n : ℕ} (h : t < n) :
    ((List.range n).map f).getD t d = f t := by
  simp [List.getD_eq_getElem?_getD, List.getElem?_map, List.getElem?_range h]

theorem gridValid_iff_cells (g : Grid) : gridValid g = (cells g).all vcell := by
  simp [gridValid, cells, List.all_flatten]

theorem totalCells_eq_sum_dims (g : Grid) : totalCells g = (dims g).sum := by
  simp [totalCells, cells, dims]

theorem mapM_daisy_types (p : Params) (l : List Cell) (h : l.all vcell = true) :
    l.mapM (daisy_types p) = some (l.map (cellAlbedo p)) := by
  induction l with
  | nil => rfl
  | cons c cs ih =>
    simp only [List.all_cons, Bool.and_eq_true] at h
    obtain ⟨hc, hcs⟩ := h
    have hd : daisy_types p c = some (cellAlbedo p c) := by
      simp only [vcell, Bool.or_eq_true, beq_iff_eq] at hc
      rcases hc with (h | h) | h <;> subst h <;> rfl
    rw [List.mapM_cons, hd, ih hcs]
    rfl

theorem calc_temp_eq (p : Params) (g : Grid) (hv : gridValid g = true)
    (hn : 0 < totalCells g) : calculate_temperature p g = .ok (temp_value p g) := by
  rw [gridValid_iff_cells] at hv
  unfold calculate_temperature
  rw [if_neg (by omega), mapM_daisy_types p _ hv]
  simp [temp_value, albedoSum, totalCells]

theorem update_cell_vcell (p : Params) (temp : ℚ) (c : Cell) (r : Rng)
    (hc : vcell c = true) : vcell (update_cell p temp c r).1 = true := by
  simp only [vcell, Bool.or_eq_true, beq_iff_eq] at hc
  unfold update_cell
  rcases hc with (h | h) | h <;> subst h <;> simp [vcell] <;> split_ifs <;> simp

theorem update_cell_draws (p : Params) (temp : ℚ) (c : Cell) (r : Rng) :
    (update_cell p temp c r).2.draws = r.draws := by
  unfold update_cell Rng.step
  split_ifs <;> rfl

theorem update_row_length (p : Params) (temp : ℚ) (row : List Cell) :
    ∀ r : Rng, (update_row p temp row r).1.length = row.length := by
  induction row with
  | nil => intro r; rfl
  | cons c cs ih => intro r; simp [update_row, ih]

theorem update_row_valid (p : Params) (temp : ℚ) (row : List Cell) :
    ∀ r : Rng, row.all vcell = true → (update_row p temp row r).1.all vcell = true := by
  induction row with
  | nil => intro r _; rfl
  | cons c cs ih =>
    intro r h
    simp only [List.all_cons, Bool.and_eq_true] at h
    simp [update_row, List.all_cons, update_cell_vcell p temp c r h.1, ih _ h.2]

theorem update_daisies_dims (p : Params) (temp : ℚ) (g : Grid) :
    ∀ r : Rng, dims (update_daisies p temp g r).1 = dims g := by
  induction g with
  | nil => intro r; rfl
  | cons row rows ih =>
    intro r
    simp [update_daisies, dims, update_row_length] at ih ⊢
    exact ih _

theorem update_daisies_valid (p : Params) (temp : ℚ) (g : Grid) :
    ∀ r : Rng, gridValid g = true → gridValid (update_daisies p temp g r).1 = true := by
  induction g with
  | nil => intro r _; rfl
  | cons row rows ih =>
    intro r h
    simp only [gridValid, List.all_cons, Bool.and_eq_true] at h
    simp only [update_daisies, gridValid, List.all_cons, Bool.and_eq_true]
    exact ⟨update_row_valid p temp row r h.1, ih _ h.2⟩

theorem sim_states_succ (p : Params) (s : Grid × Rng) (t : ℕ)
    (hv : gridValid s.1 = true) (hn : 0 < totalCells s.1) :
    sim_states p s (t + 1) =
      sim_states p (update_daisies p (temp_value p s.1) s.1 s.2) t := by
  have h : sim_states p s (t + 1) =
      match calculate_temperature p s.1 with
      | .error _ => s
      | .ok temp => sim_states p (update_daisies p temp s.1 s.2) t := rfl
  rw [h, calc_temp_eq p s.1 hv hn]

theorem sim_states_invariant (p : Params) (t : ℕ) :
    ∀ s : Grid × Rng, gridValid s.1 = true → 0 < totalCells s.1 →
      gridValid (sim_states p s t).1 = true ∧ dims (sim_states p s t).1 = dims s.1 := by
  induction t with
  | zero => intro s hv _; exact ⟨hv, rfl⟩
  | succ n ih =>
    intro s hv hn
    rw [sim_states_succ p s n hv hn]
    have hd := update_daisies_dims p (temp_value p s.1) s.1 s.2
    have hv2 := update_daisies_valid p (temp_value p s.1) s.1 s.2 hv
    have hn2 : 0 < totalCells (update_daisies p (temp_value p s.1) s.1 s.2).1 := by
      rw [totalCells_eq_sum_dims, hd, ← totalCells_eq_sum_dims]
      exact hn
    obtain ⟨h1, h2⟩ := ih (update_daisies p (temp_value p s.1) s.1 s.2) hv2 hn2
    exact ⟨h1, h2.trans hd⟩

theorem simulate_eq (p : Params) (n : ℕ) :
    ∀ s : Grid × Rng, gridValid s.1 = true → 0 < totalCells s.1 →
      simulate_daisyworld p s.1 s.2 n =
        .ok ((List.range n).map (fun t => (sim_states p s t).1),
             (List.range n).map (fun t => temp_value p (sim_states p s t).1),
             (List.range n).map (fun t => countCell (sim_states p s t).1 "white"),
             (List.range n).map (fun t => countCell (sim_states p s t).1 "black"),
             (List.range n).map (fun t => countCell (sim_states p s t).1 "empty")) := by
  induction n with
  | zero => intro s hv hn; rfl
  | succ n ih =>
    intro s hv hn
    have hcalc := calc_temp_eq p s.1 hv hn
    have hd := update_daisies_dims p (temp_value p s.1) s.1 s.2
    have hv2 := update_daisies_valid p (temp_value p s.1) s.1 s.2 hv
    have hn2 : 0 < totalCells (update_daisies p (temp_value p s.1) s.1 s.2).1 := by
      rw [totalCells_eq_sum_dims, hd, ← totalCells_eq_sum_dims]
      exact hn
    have hrec := ih (update_daisies p (temp_value p s.1) s.1 s.2) hv2 hn2
    have hshift : ∀ t, sim_states p s (t + 1) =
        sim_states p (update_daisies p (temp_value p s.1) s.1 s.2) t :=
      fun t => sim_states_succ p s t hv hn
    have hunfold : simulate_daisyworld p s.1 s.2 (n + 1) =
        match calculate_temperature p s.1 with
        | .error e => .error e
        | .ok temp =>
          match simulate_daisyworld p (update_daisies p temp s.1 s.2).1
              (update_daisies p temp s.1 s.2).2 n with
          | .error e => .error e
          | .ok (gs, ts, ws, bs, es) =>
            .ok (s.1 :: gs, temp :: ts, countCell s.1 "white" :: ws,
                 countCell s.1 "black" :: bs, countCell s.1 "empty" :: es) := rfl
    have hunfold2 : simulate_daisyworld p s.1 s.2 (n + 1) =
        match simulate_daisyworld p (update_daisies p (temp_value p s.1) s.1 s.2).1
            (update_daisies p (temp_value p s.1) s.1 s.2).2 n with
        | .error e => .error e
        | .ok (gs, ts, ws, bs, es) =>
          .ok (s.1 :: gs, temp_value p s.1 :: ts, countCell s.1 "white" :: ws,
               countCell s.1 "black" :: bs, countCell s.1 "empty" :: es) := by
      rw [hunfold, hcalc]
    have hstep : simulate_daisyworld p s.1 s.2 (n + 1) =
        .ok (s.1 :: (List.range n).map
              (fun t => (sim_states p (update_daisies p (temp_value p s.1) s.1 s.2) t).1),
             temp_value p s.1 :: (List.range n).map
              (fun t => temp_value p (sim_states p (update_daisies p (temp_value p s.1) s.1 s.2) t).1),
             countCell s.1 "white" :: (List.range n).map
              (fun t => countCell (sim_states p (update_daisies p (temp_value p s.1) s.1 s.2) t).1 "white"),
             countCell s.1 "black" :: (List.range n).map
              (fun t => countCell (sim_states p (update_daisies p (temp_value p s.1) s.1 s.2) t).1 "black"),
             countCell s.1 "empty" :: (List.range n).map
              (fun t => countCell (sim_states p (update_daisies p (temp_value p s.1) s.1 s.2) t).1 "empty")) := by
      rw [hunfold2, hrec]
    rw [hstep]
    have h0 : sim_states p s 0 = s := rfl
    simp only [List.range_succ_eq_map, List.map_cons, List.map_map, Function.comp_def,
      Nat.succ_eq_add_one, hshift, h0]

theorem count_filter_sum (l : List Cell) (h : l.all vcell = true) :
    (l.filter (fun x => x == "white")).length + (l.filter (fun x => x == "black")).length +
      (l.filter (fun x => x == "empty")).length = l.length := by
  induction l with
  | nil => rfl
  | cons c cs ih =>
    simp only [List.all_cons, Bool.and_eq_true] at h
    have hrec := ih h.2
    have hc := h.1
    simp only [vcell, Bool.or_eq_true, beq_iff_eq] at hc
    rcases hc with (e | e) | e <;> subst e <;> simp [List.filter_cons] <;> omega

theorem countCell_sum (g : Grid) (h : gridValid g = true) :
    countCell g "white" + countCell g "black" + countCell g "empty" = totalCells g := by
  rw [gridValid_iff_cells] at h
  exact count_filter_sum (cells g) h

theorem update_cell_frozen (p : Params) (temp : ℚ) (c : Cell) (r : Rng)
    (hrep : p.reproductionRate = 0) (hdeath : p.deathRate = 0) (hd : 0 ≤ r.val) :
    (update_cell p temp c r).1 = c := by
  have hg : growthProb p temp = 0 := by rw [growthProb, hrep, zero_mul]
  have hdp : deathProb p temp = 0 := by rw [deathProb, hdeath, zero_mul]
  unfold update_cell
  split_ifs with h1 h2 h3 h4 h5 <;> try rfl
  · rw [hg] at h2; exact absurd h2 (not_lt.2 hd)
  · rw [hg] at h2; exact absurd h2 (not_lt.2 hd)
  · rw [hdp] at h5; exact absurd h5 (not_lt.2 hd)

theorem update_row_frozen (p : Params) (temp : ℚ) (row : List Cell)
    (hrep : p.reproductionRate = 0) (hdeath : p.deathRate = 0) :
    ∀ r : Rng, (∀ n, 0 ≤ r.draws n) →
      (update_row p temp row r).1 = row ∧ (update_row p temp row r).2.draws = r.draws := by
  induction row with
  | nil => intro r _; exact ⟨rfl, rfl⟩
  | cons c cs ih =>
    intro r hd
    have h1 : (update_cell p temp c r).1 = c :=
      update_cell_frozen p temp c r hrep hdeath (hd r.idx)
    have h2 : (update_cell p temp c r).2.draws = r.draws := update_cell_draws p temp c r
    have hd2 : ∀ n, 0 ≤ (update_cell p temp c r).2.draws n := by rw [h2]; exact hd
    obtain ⟨ih1, ih2⟩ := ih (update_cell p temp c r).2 hd2
    constructor
    · simp [update_row, h1, ih1]
    · simp [update_row, ih2, h2]

theorem update_daisies_frozen (p : Params) (temp : ℚ) (g : Grid)
    (hrep : p.reproductionRate = 0) (hdeath : p.deathRate = 0) :
    ∀ r : Rng, (∀ n, 0 ≤ r.draws n) →
      (update_daisies p temp g r).1 = g ∧ (update_daisies p temp g r).2.draws = r.draws := by
  induction g with
  | nil => intro r _; exact ⟨rfl, rfl⟩
  | cons row rows ih =>
    intro r hd
    obtain ⟨h1, h2⟩ := update_row_frozen p temp row hrep hdeath r hd
    have hd2 : ∀ n, 0 ≤ (update_row p temp row r).2.draws n := by rw [h2]; exact hd
    obtain ⟨ih1, ih2⟩ := ih (update_row p temp row r).2 hd2
    constructor
    · simp [update_daisies, h1, ih1]
    · simp [update_daisies, ih2, h2]

theorem sim_states_frozen (p : Params) (g : Grid)
    (hrep : p.reproductionRate = 0) (hdeath : p.deathRate = 0)
    (hv : gridValid g = true) (hn : 0 < totalCells g) (t : ℕ) :
    ∀ r : Rng, (∀ n, 0 ≤ r.draws n) →
      (sim_states p (g, r) t).1 = g ∧ (sim_states p (g, r) t).2.draws = r.draws := by
  induction t with
  | zero => intro r _; exact ⟨rfl, rfl⟩
  | succ n ih =>
    intro r hd
    have hsucc : sim_states p (g, r) (n + 1) =
        sim_states p (update_daisies p (temp_value p g) g r) n :=
      sim_states_succ p (g, r) n hv hn
    obtain ⟨u1, u2⟩ := update_daisies_frozen p (temp_value p g) g hrep hdeath r hd
    have hpair : update_daisies p (temp_value p g) g r =
        (g, (update_daisies p (temp_value p g) g r).2) := by
      rw [Prod.ext_iff]
      exact ⟨u1, rfl⟩
    have hd2 : ∀ n, 0 ≤ (update_daisies p (temp_value p g) g r).2.draws n := by
      rw [u2]; exact hd
    obtain ⟨i1, i2⟩ := ih (update_daisies p (temp_value p g) g r).2 hd2
    rw [hsucc, hpair]
    exact ⟨i1, i2.trans u2⟩

/-! ### Concrete example inputs used by the witnesses -/

/-- An all-empty 2×2 grid (a grid that is 100% Empty). -/
def gC1 : Grid := [["empty", "empty"], ["empty", "empty"]]

/-- Parameters with albedoEmpty = 1/2, solarLuminosity = 1 and
optimalTemp = 22 (other fields are the app defaults). -/
def pC1 : Params := ⟨2, 1, 0, 0, 1, 1, 0, 1 / 2, 1, 22, 3 / 10, 1 / 10⟩

/-- A random source that always draws 0. -/
def rZero : Rng := ⟨fun _ => 0, 0⟩

/-- App-default parameters except that optimalTemp is 0. -/
def pC7 : Params := ⟨30, 100, 3 / 10, 3 / 10, 2 / 5, 1, 0, 1 / 2, 1, 0, 3 / 10, 1 / 10⟩

/-! ### Claims -/

/-- C1: for every non-empty grid, `calculate_temperature` returns exactly
`solarLuminosity * (1 - globalAlbedo) * (2 * optimalTemp)`, where
`globalAlbedo` is the arithmetic mean, over all cells, of the cell's mapped
albedo value under White→albedoWhite, Black→albedoBlack, Empty→albedoEmpty. -/
theorem C1_computeTemperature_formula (p : Params) (g : Grid)
    (hv : gridValid g = true) (hn : 0 < totalCells g) :
    calculate_temperature p g =
      .ok (p.solarLuminosity * (1 - albedoSum p g / (totalCells g : ℚ)) *
           (2 * p.optimalTemp)) :=
  calc_temp_eq p g hv hn

/-- Witness for C1: on the 100% Empty grid with albedoEmpty = 1/2,
solarLuminosity = 1 and optimalTemp = 22 the result is exactly 22. -/
theorem C1_computeTemperature_formula_witness :
    calculate_temperature pC1 gC1 = .ok 22 := by
  rw [C1_computeTemperature_formula pC1 gC1 (by decide) (by decide)]
  have e : cellAlbedo pC1 "empty" = 1 / 2 := rfl
  have e1 : pC1.solarLuminosity = 1 := rfl
  have e2 : pC1.optimalTemp = 22 := rfl
  have h : pC1.solarLuminosity * (1 - albedoSum pC1 gC1 / (totalCells gC1 : ℚ)) *
      (2 * pC1.optimalTemp) = 22 := by
    norm_num [albedoSum, cells, gC1, totalCells, e, e1, e2]
  rw [h]

/-- C9: `calculate_temperature` fails with the invalid-grid error on a
degenerate grid with no cells (the mean is undefined there), and has no
other error condition: on every non-empty grid of recognized cell states it
returns a value. -/
theorem C9_computeTemperature_empty_grid (p : Params) (g : Grid) :
    (totalCells g = 0 → calculate_temperature p g = .error .invalidGrid) ∧
    (gridValid g = true → 0 < totalCells g → ∃ v, calculate_temperature p g = .ok v) := by
  constructor
  · intro h
    unfold calculate_temperature
    rw [if_pos h]
  · intro hv hn
    exact ⟨temp_value p g, calc_temp_eq p g hv hn⟩

/-- Witness for C9: the 0×0 grid fails with the invalid-grid error, and a
1×1 grid succeeds. -/
theorem C9_computeTemperature_empty_grid_witness :
    calculate_temperature pC1 [] = .error .invalidGrid ∧
    ∃ v, calculate_temperature pC1 [["white"]] = .ok v :=
  ⟨(C9_computeTemperature_empty_grid pC1 []).1 (by decide),
   (C9_computeTemperature_empty_grid pC1 [["white"]]).2 (by decide) (by decide)⟩

/-- C3: for an Empty cell (with optimalTemp nonzero), one uniform draw is
compared against `reproductionRate * (1 - |temperature - optimalTemp| / optimalTemp)`;
if it is below, one further independent draw picks White or Black with equal
probability, otherwise the cell stays Empty; and a negative growth
probability never triggers growth. -/
theorem C3_updateGrid_empty_cell (p : Params) (temp : ℚ) (r : Rng)
    (hopt : p.optimalTemp ≠ 0) (hd : ∀ n, 0 ≤ r.draws n) :
    (update_cell p temp "empty" r =
      if r.draws r.idx <
          p.reproductionRate * (1 - |temp - p.optimalTemp| / p.optimalTemp) then
        ((if r.draws (r.idx + 1) < 1 / 2 then "white" else "black"), ⟨r.draws, r.idx + 2⟩)
      else ("empty", ⟨r.draws, r.idx + 1⟩)) ∧
    (p.reproductionRate * (1 - |temp - p.optimalTemp| / p.optimalTemp) < 0 →
      update_cell p temp "empty" r = ("empty", ⟨r.draws, r.idx + 1⟩)) := by
  have h1 : update_cell p temp "empty" r =
      if r.draws r.idx <
          p.reproductionRate * (1 - |temp - p.optimalTemp| / p.optimalTemp) then
        ((if r.draws (r.idx + 1) < 1 / 2 then "white" else "black"), ⟨r.draws, r.idx + 2⟩)
      else ("empty", ⟨r.draws, r.idx + 1⟩) := by
    simp only [update_cell, growthProb, Rng.val, Rng.step]
    rfl
  refine ⟨h1, fun hneg => ?_⟩
  rw [h1, if_neg (not_lt.2 (hneg.le.trans (hd r.idx)))]

/-- Witness for C3: with the all-zero draw stream and app-default rates the
empty cell grows and becomes White (the color draw 0 is below 1/2). -/
theorem C3_updateGrid_empty_cell_witness :
    update_cell pC1 22 "empty" rZero = ("white", ⟨rZero.draws, 2⟩) := by
  have h := C3_updateGrid_empty_cell pC1 22 rZero (by decide)
    (fun n => le_refl 0)
  rw [h.1]
  norm_num [rZero, pC1]

/-- C4: for a White or Black cell (with optimalTemp nonzero), one uniform
draw below `deathRate * |temperature - optimalTemp| / optimalTemp` makes the
cell Empty, otherwise it keeps its color; at temperature = optimalTemp the
death probability is 0 so an occupied cell never dies, and an empty cell's
growth probability equals reproductionRate. -/
theorem C4_updateGrid_occupied_cell (p : Params) (temp : ℚ) (r : Rng) (c : Cell)
    (hopt : p.optimalTemp ≠ 0) (hc : c = "white" ∨ c = "black")
    (hd : ∀ n, 0 ≤ r.draws n) :
    (update_cell p temp c r =
      if r.draws r.idx < p.deathRate * (|temp - p.optimalTemp| / p.optimalTemp) then
        ("empty", ⟨r.draws, r.idx + 1⟩)
      else (c, ⟨r.draws, r.idx + 1⟩)) ∧
    (temp = p.optimalTemp →
      deathProb p temp = 0 ∧
      update_cell p temp c r = (c, ⟨r.draws, r.idx + 1⟩) ∧
      growthProb p temp = p.reproductionRate) := by
  have hne : c ≠ "empty" := by
    rcases hc with h | h <;> subst h <;> decide
  have h1 : update_cell p temp c r =
      if r.draws r.idx < p.deathRate * (|temp - p.optimalTemp| / p.optimalTemp) then
        ("empty", ⟨r.draws, r.idx + 1⟩)
      else (c, ⟨r.draws, r.idx + 1⟩) := by
    unfold update_cell deathProb Rng.val Rng.step
    rw [if_neg hne, if_pos hc]
  refine ⟨h1, fun heq => ⟨?_, ?_, ?_⟩⟩
  · rw [deathProb, heq]
    simp
  · have hno : ¬ r.draws r.idx <
        p.deathRate * (|p.optimalTemp - p.optimalTemp| / p.optimalTemp) := by
      simpa using hd r.idx
    rw [h1, heq, if_neg hno]
  · rw [growthProb, heq]
    simp

/-- Witness for C4: at temperature exactly optimalTemp a white cell never
dies and the growth probability equals the reproduction rate. -/
theorem C4_updateGrid_occupied_cell_witness :
    deathProb pC1 22 = 0 ∧
    update_cell pC1 22 "white" rZero = ("white", ⟨rZero.draws, 1⟩) ∧
    growthProb pC1 22 = pC1.reproductionRate :=
  (C4_updateGrid_occupied_cell pC1 22 rZero "white" (by decide) (Or.inl rfl)
    (fun n => le_refl 0)).2 (by decide)

/-- C10: a cell whose value is none of the three recognized states is left
unchanged by the update (the value is copied verbatim from `grid.copy()`)
and no draw is consumed and no error is raised. -/
theorem C10_updateGrid_unknown_cell (p : Params) (temp : ℚ) (c : Cell) (r : Rng)
    (h1 : c ≠ "white") (h2 : c ≠ "black") (h3 : c ≠ "empty") :
    update_cell p temp c r = (c, r) ∧
    update_daisies p temp [[c]] r = ([[c]], r) := by
  have hcell : update_cell p temp c r = (c, r) := by
    unfold update_cell
    rw [if_neg h3, if_neg ?_]
    intro hor
    rcases hor with h | h
    · exact h1 h
    · exact h2 h
  refine ⟨hcell, ?_⟩
  simp [update_daisies, update_row, hcell]

/-- Witness for C10 at the unknown value "purple". -/
theorem C10_updateGrid_unknown_cell_witness :
    update_cell pC1 22 "purple" rZero = ("purple", rZero) ∧
    update_daisies pC1 22 [["purple"]] rZero = ([["purple"]], rZero) :=
  C10_updateGrid_unknown_cell pC1 22 "purple" rZero (by decide) (by decide) (by decide)

/-- C7: `validate` rejects, with the invalid-parameters error, every
parameter set whose fractions are out of range or sum above 1, whose
optimalTemp is 0, or whose gridSize or steps is non-positive; the assembled
pipeline then fails at validation, so the simulation (and hence
`update_daisies`) is never reached. -/
theorem C7_validate_rejects (p : Params) (g : Grid) (r : Rng)
    (h : p.whiteFrac < 0 ∨ 1 < p.whiteFrac ∨ p.blackFrac < 0 ∨ 1 < p.blackFrac ∨
         1 < p.whiteFrac + p.blackFrac ∨ p.optimalTemp = 0 ∨
         p.gridSize ≤ 0 ∨ p.steps ≤ 0) :
    validate p = .error .invalidParameters ∧
    run_validated p g r = .error .invalidParameters := by
  have hv : validate p = .error .invalidParameters := by
    unfold validate
    rw [if_pos (by tauto)]
  refine ⟨hv, ?_⟩
  unfold run_validated
  rw [hv]

/-- Witness for C7: a parameter set with optimalTemp = 0 is rejected and
never reaches the simulation. -/
theorem C7_validate_rejects_witness :
    validate pC7 = .error .invalidParameters ∧
    run_validated pC7 [["white"]] rZero = .error .invalidParameters :=
  C7_validate_rejects pC7 [["white"]] rZero
    (Or.inr (Or.inr (Or.inr (Or.inr (Or.inr (Or.inl rfl))))))

/-- C2: for every initial (data-model) grid and steps > 0, the driver
returns histories of length exactly steps, index-aligned so that index t
carries the grid before step t's update was applied, the temperature
computed on that same grid, and the per-state population counts of that
same grid. -/
theorem C2_runSimulation_history (p : Params) (grid : Grid) (r : Rng) (steps : ℕ)
    (hv : gridValid grid = true) (hn : 0 < totalCells grid) (hs : 0 < steps) :
    ∃ gs ts ws bs es,
      simulate_daisyworld p grid r steps = .ok (gs, ts, ws, bs, es) ∧
      gs.length = steps ∧ ts.length = steps ∧ ws.length = steps ∧
      bs.length = steps ∧ es.length = steps ∧
      gs.getD 0 [] = grid ∧
      (∀ t, t < steps → gs.getD t [] = (sim_states p (grid, r) t).1) ∧
      (∀ t, t < steps →
        calculate_temperature p (gs.getD t []) = .ok (ts.getD t 0) ∧
        ws.getD t 0 = countCell (gs.getD t []) "white" ∧
        bs.getD t 0 = countCell (gs.getD t []) "black" ∧
        es.getD t 0 = countCell (gs.getD t []) "empty") := by
  have hsim := simulate_eq p steps (grid, r) hv hn
  refine ⟨_, _, _, _, _, hsim, by simp, by simp, by simp, by simp, by simp, ?_, ?_, ?_⟩
  · rw [getD_map_range _ _ hs]
    rfl
  · intro t ht
    rw [getD_map_range _ _ ht]
  · intro t ht
    obtain ⟨hval, hdims⟩ := sim_states_invariant p t (grid, r) hv hn
    have hnt : 0 < totalCells (sim_states p (grid, r) t).1 := by
      rw [totalCells_eq_sum_dims, hdims, ← totalCells_eq_sum_dims]
      exact hn
    rw [getD_map_range _ _ ht, getD_map_range _ _ ht, getD_map_range _ _ ht,
        getD_map_range _ _ ht, getD_map_range _ _ ht]
    exact ⟨calc_temp_eq p _ hval hnt, rfl, rfl, rfl⟩

/-- Witness for C2 at the 2×2 all-empty grid, two steps. -/
theorem C2_runSimulation_history_witness :
    ∃ gs ts ws bs es,
      simulate_daisyworld pC1 gC1 rZero 2 = .ok (gs, ts, ws, bs, es) ∧
      gs.length = 2 ∧ ts.length = 2 ∧ ws.length = 2 ∧ bs.length = 2 ∧ es.length = 2 ∧
      gs.getD 0 [] = gC1 ∧
      (∀ t, t < 2 → gs.getD t [] = (sim_states pC1 (gC1, rZero) t).1) ∧
      (∀ t, t < 2 →
        calculate_temperature pC1 (gs.getD t []) = .ok (ts.getD t 0) ∧
        ws.getD t 0 = countCell (gs.getD t []) "white" ∧
        bs.getD t 0 = countCell (gs.getD t []) "black" ∧
        es.getD t 0 = countCell (gs.getD t []) "empty") :=
  C2_runSimulation_history pC1 gC1 rZero 2 (by decide) (by decide) (by decide)

/-- C5: `update_daisies` keeps the grid dimensions, introduces no fourth
state value, and along the driver's history every recorded grid keeps the
initial dimensions and valid states, with the three per-state counts
summing to gridSize squared. -/
theorem C5_grid_invariants (p : Params) (temp : ℚ) (g : Grid) (r : Rng)
    (grid : Grid) (rs : Rng) (steps n : ℕ)
    (hv : gridValid grid = true) (hdm : dims grid = List.replicate n n) (hn : 0 < n) :
    dims (update_daisies p temp g r).1 = dims g ∧
    (gridValid g = true → gridValid (update_daisies p temp g r).1 = true) ∧
    ∃ gs ts ws bs es,
      simulate_daisyworld p grid rs steps = .ok (gs, ts, ws, bs, es) ∧
      ∀ t, t < steps →
        dims (gs.getD t []) = dims grid ∧ gridValid (gs.getD t []) = true ∧
        ws.getD t 0 + bs.getD t 0 + es.getD t 0 = n * n := by
  have htot : totalCells grid = n * n := by
    rw [totalCells_eq_sum_dims, hdm, List.sum_const_nat]
  have hn0 : 0 < totalCells grid := by
    rw [htot]
    exact Nat.mul_pos hn hn
  refine ⟨update_daisies_dims p temp g r,
    fun hg => update_daisies_valid p temp g r hg, ?_⟩
  have hsim := simulate_eq p steps (grid, rs) hv hn0
  refine ⟨_, _, _, _, _, hsim, ?_⟩
  intro t ht
  obtain ⟨hval, hdims⟩ := sim_states_invariant p t (grid, rs) hv hn0
  rw [getD_map_range _ _ ht, getD_map_range _ _ ht, getD_map_range _ _ ht,
      getD_map_range _ _ ht]
  refine ⟨hdims, hval, ?_⟩
  rw [countCell_sum _ hval, totalCells_eq_sum_dims, hdims, ← totalCells_eq_sum_dims, htot]

/-- Witness for C5 at the 2×2 all-empty grid. -/
theorem C5_grid_invariants_witness :
    dims (update_daisies pC1 22 gC1 rZero).1 = dims gC1 ∧
    (gridValid gC1 = true → gridValid (update_daisies pC1 22 gC1 rZero).1 = true) ∧
    ∃ gs ts ws bs es,
      simulate_daisyworld pC1 gC1 rZero 2 = .ok (gs, ts, ws, bs, es) ∧
      ∀ t, t < 2 →
        dims (gs.getD t []) = dims gC1 ∧ gridValid (gs.getD t []) = true ∧
        ws.getD t 0 + bs.getD t 0 + es.getD t 0 = 2 * 2 :=
  C5_grid_invariants pC1 22 gC1 rZero gC1 rZero 2 2 (by decide) (by decide) (by decide)

/-- Parameters with reproductionRate = 0 and deathRate = 0 (other fields as
pC1). -/
def pC6 : Params := ⟨2, 1, 0, 0, 1, 1, 0, 1 / 2, 1, 22, 0, 0⟩

/-- C6: with reproductionRate = 0 and deathRate = 0 no cell ever changes
state: every recorded grid equals the initial grid cell-for-cell, and the
population counts are identical at every timestep, regardless of
temperature and of the random draws. -/
theorem C6_zero_rates_frozen (p : Params) (grid : Grid) (r : Rng) (steps : ℕ)
    (hrep : p.reproductionRate = 0) (hdeath : p.deathRate = 0)
    (hd : ∀ n, 0 ≤ r.draws n) (hv : gridValid grid = true)
    (hn : 0 < totalCells grid) :
    ∃ gs ts ws bs es,
      simulate_daisyworld p grid r steps = .ok (gs, ts, ws, bs, es) ∧
      ∀ t, t < steps →
        gs.getD t [] = grid ∧
        ws.getD t 0 = countCell grid "white" ∧
        bs.getD t 0 = countCell grid "black" ∧
        es.getD t 0 = countCell grid "empty" := by
  have hsim := simulate_eq p steps (grid, r) hv hn
  refine ⟨_, _, _, _, _, hsim, ?_⟩
  intro t ht
  have hfro := sim_states_frozen p grid hrep hdeath hv hn t r hd
  rw [getD_map_range _ _ ht, getD_map_range _ _ ht, getD_map_range _ _ ht,
      getD_map_range _ _ ht, hfro.1]
  exact ⟨rfl, rfl, rfl, rfl⟩

/-- Witness for C6 at the 2×2 all-empty grid with zero rates, three steps. -/
theorem C6_zero_rates_frozen_witness :
    ∃ gs ts ws bs es,
      simulate_daisyworld pC6 gC1 rZero 3 = .ok (gs, ts, ws, bs, es) ∧
      ∀ t, t < 3 →
        gs.getD t [] = gC1 ∧
        ws.getD t 0 = countCell gC1 "white" ∧
        bs.getD t 0 = countCell gC1 "black" ∧
        es.getD t 0 = countCell gC1 "empty" :=
  C6_zero_rates_frozen pC6 gC1 rZero 3 rfl rfl (fun n => le_refl 0)
    (by decide) (by decide)

/-- C8: `initialize_grid` fails with the invalid-parameters error whenever
any of the three fractions is negative or their sum deviates from 1 beyond
the tolerance; for a valid input it returns a size × size grid in which
each cell is decided by its own independent uniform draw according to the
categorical distribution white: whiteFrac, black: blackFrac, empty:
emptyFrac. -/
theorem C8_initializeGrid_spec (p : Params) (r : Rng) (size : ℕ) :
    (p.whiteFrac < 0 ∨ p.blackFrac < 0 ∨ p.emptyFrac < 0 →
      initialize_grid p r size = .error .invalidParameters) ∧
    (atol < |p.whiteFrac + p.blackFrac + p.emptyFrac - 1| →
      initialize_grid p r size = .error .invalidParameters) ∧
    (0 ≤ p.whiteFrac → 0 ≤ p.blackFrac → 0 ≤ p.emptyFrac →
      p.whiteFrac + p.blackFrac + p.emptyFrac = 1 →
      ∃ g, initialize_grid p r size = .ok g ∧
        dims g = List.replicate size size ∧
        ∀ i j, i < size → j < size →
          (g.getD i []).getD j "" =
            if r.draws (r.idx + i * size + j) < p.whiteFrac then "white"
            else if r.draws (r.idx + i * size + j) < p.whiteFrac + p.blackFrac then "black"
            else "empty") := by
  refine ⟨?_, ?_, ?_⟩
  · intro h
    unfold initialize_grid
    rw [if_pos h]
  · intro h
    unfold initialize_grid
    by_cases hneg : p.whiteFrac < 0 ∨ p.blackFrac < 0 ∨ p.emptyFrac < 0
    · rw [if_pos hneg]
    · rw [if_neg hneg, if_pos h]
  · intro h1 h2 h3 hsum
    have hne : ¬ (p.whiteFrac < 0 ∨ p.blackFrac < 0 ∨ p.emptyFrac < 0) := by
      push_neg
      exact ⟨h1, h2, h3⟩
    have hs : ¬ atol < |p.whiteFrac + p.blackFrac + p.emptyFrac - 1| := by
      rw [hsum]
      simp [atol]
    refine ⟨(List.range size).map (fun i => (List.range size).map (fun j =>
        init_cell p (p.whiteFrac + p.blackFrac + p.emptyFrac)
          (r.draws (r.idx + i * size + j)))), ?_, ?_, ?_⟩
    · unfold initialize_grid
      rw [if_neg hne, if_neg hs]
    · unfold dims
      rw [List.map_map]
      have hlen : (List.length ∘ fun i => (List.range size).map (fun j =>
          init_cell p (p.whiteFrac + p.blackFrac + p.emptyFrac)
            (r.draws (r.idx + i * size + j)))) = fun _ : ℕ => size := by
        funext i
        simp
      rw [hlen, List.map_const', List.length_range]
    · intro i j hi hj
      rw [getD_map_range _ _ hi, getD_map_range _ _ hj]
      unfold init_cell
      rw [hsum]
      simp

/-- Parameters whose three fractions are 3/10, 3/10 and 2/5 (sum 1). -/
def pC8 : Params := ⟨2, 1, 3 / 10, 3 / 10, 2 / 5, 1, 0, 1 / 2, 1, 22, 3 / 10, 1 / 10⟩

/-- Parameters with a negative black fraction. -/
def pC8bad : Params := ⟨2, 1, 3 / 10, -1 / 10, 4 / 5, 1, 0, 1 / 2, 1, 22, 3 / 10, 1 / 10⟩

/-- Witness for C8: the negative fraction is rejected, and a valid input
yields a 2×2 grid of categorical draws. -/
theorem C8_initializeGrid_spec_witness :
    initialize_grid pC8bad rZero 2 = .error .invalidParameters ∧
    ∃ g, initialize_grid pC8 rZero 2 = .ok g ∧
      dims g = List.replicate 2 2 ∧
      ∀ i j, i < 2 → j < 2 →
        (g.getD i []).getD j "" =
          if rZero.draws (rZero.idx + i * 2 + j) < pC8.whiteFrac then "white"
          else if rZero.draws (rZero.idx + i * 2 + j) < pC8.whiteFrac + pC8.blackFrac then "black"
          else "empty" :=
  ⟨(C8_initializeGrid_spec pC8bad rZero 2).1
      (Or.inr (Or.inl (by norm_num [pC8bad]))),
   (C8_initializeGrid_spec pC8 rZero 2).2.2
      (by norm_num [pC8]) (by norm_num [pC8]) (by norm_num [pC8]) (by norm_num [pC8])⟩
